import Mathlib

/-!
Shallow embedding of `src/spread_stitcher.py` (Manga-Spread-Stitcher).

The program converts right-to-left manga `cbz` archives so that two
consecutive pages are merged into one double-wide "spread" image.  The
embedding models the page-level pipeline of the source:

* `incorrect_dimensions` — the inner dimension check of `extract`;
* `substituteFirstPage` / `extractNE` / `extract` — the validator
  (`extract` in the source), operating on the page sequence in
  descending filename order (the order `sorted(out.iterdir(),
  reverse=True)` produces);
* `stitchPairs` / `stitch` — the stitcher (`stitch` in the source);
* `convertRun` / `convert` / `convertTrace` — the single-chapter
  converter (`convert`), with an event trace recording the order of
  its filesystem milestones;
* `process_convert` / `batchExitCode` — the batch boundary
  (`process_convert` and the non-volume branch of `main`);
* `extract_stitch_move` / `convert_volume` — volume assembly.

Images are modelled by their observable attributes (filename stem and
suffix, width, height, mode, and whether the pixel data is a single
uniform white color, which is what `getcolors(1)` + the white
comparison observe).  Unhandled Python exceptions (e.g. `IndexError`
on an empty archive) are modelled by `Option.none`.
-/

deriving instance DecidableEq for Except

namespace SpreadStitcher

/-- One page image, by the attributes the source observes: filename stem
and suffix, pixel width and height, PIL mode, and whether
`convert("RGBA").getcolors(1)` reports a single color equal to white. -/
structure Img where
  stem : String
  suffix : String
  width : Nat
  height : Nat
  mode : String
  uniformWhite : Bool
deriving DecidableEq, Repr

/-- Full filename of a page (`stem + suffix`). -/
def Img.name (p : Img) : String := p.stem ++ p.suffix

/-- The errors `extract` can raise: `FileNotFoundError` (bad path or not
a `.cbz`) and `WrongImageSize` (the `DimensionMismatch` of the spec),
recording the offending page's name and dimensions and the reference
dimensions, as the raise site's message does. -/
inductive ExtractError where
  | fileNotFound (msg : String)
  | wrongImageSize (imgName : String) (pageWidth pageHeight refWidth refHeight : Nat)
deriving DecidableEq, Repr

/-- Direct transliteration of the source's `incorrect_dimensions`
closure: `(page.width > width or page.height > height) or
(page.width * 2 >= width - 100 and page.width * 2 <= width + 100)`.
`width - 100` is truncated `Nat` subtraction; when `width < 100` the
first inequality is vacuously true both here and in Python (where the
right-hand side is negative), so the semantics agree. -/
def incorrect_dimensions (width height : Nat) (page : Img) : Bool :=
  (page.width > width || page.height > height) ||
    (page.width * 2 ≥ width - 100 && page.width * 2 ≤ width + 100)

/-- The blank page `create_blank_page` synthesizes: a white page at the
reference width/height/mode, saved as `blank{imgs[0].suffix}`. -/
def blankPage (width height : Nat) (mode suffix : String) : Img :=
  { stem := "blank", suffix := suffix, width := width, height := height,
    mode := mode, uniformWhite := true }

/-- The special first-page step of `extract`: if the last element of the
descending sequence (`imgs[-1]`, the chronologically first page) has
incorrect dimensions and is uniform white, it is replaced by a fresh
blank page at reference dimensions. -/
def substituteFirstPage (first : Img) (rest : List Img) : List Img :=
  if incorrect_dimensions first.width first.height (rest.getLastD first)
      && (rest.getLastD first).uniformWhite then
    (first :: rest).dropLast ++
      [blankPage first.width first.height first.mode first.suffix]
  else
    first :: rest

/-- The validator `extract` on a nonempty page sequence in descending
filename order.  Reference dimensions come from the head (`imgs[0]`).
After the first-page substitution, the first page with incorrect
dimensions (in iteration order) raises `WrongImageSize`; otherwise, if
the sequence has odd length, the blank page is inserted at the front
(`imgs.insert(0, blank_page_path)`). -/
def extractNE (first : Img) (rest : List Img) : Except ExtractError (List Img) :=
  match (substituteFirstPage first rest).find?
      (fun p => incorrect_dimensions first.width first.height p) with
  | some p =>
    .error (.wrongImageSize p.name p.width p.height first.width first.height)
  | none =>
    if (substituteFirstPage first rest).length % 2 ≠ 0 then
      .ok (blankPage first.width first.height first.mode first.suffix ::
            substituteFirstPage first rest)
    else
      .ok (substituteFirstPage first rest)

/-- `extract` on the extracted page list; `none` models the uncaught
`IndexError` the source hits on `imgs[0]` when the archive is empty. -/
def extract (imgs : List Img) : Option (Except ExtractError (List Img)) :=
  match imgs with
  | [] => none
  | first :: rest => some (extractNE first rest)

/-- What one output file of `stitch` holds: a warning page, or a spread
made of a left and a right source page. -/
inductive OutKind where
  | warning
  | spread (left right : Img)
deriving DecidableEq, Repr

/-- One file written by `stitch`: its page number, filename extension,
pixel width and height, and kind. -/
structure OutFile where
  num : Nat
  ext : String
  width : Nat
  height : Nat
  kind : OutKind
deriving DecidableEq, Repr

/-- Whether an output file is the warning page. -/
def OutFile.isWarning (o : OutFile) : Bool :=
  match o.kind with
  | .warning => true
  | .spread _ _ => false

/-- The source pages consumed by an output file (none for the warning
page, the left then right page for a spread). -/
def OutFile.sources (o : OutFile) : List Img :=
  match o.kind with
  | .warning => []
  | .spread l r => [l, r]

/-- The zero-padded page number `f"{pagenum:03d}"`. -/
def numName (n : Nat) : String :=
  let s := toString n
  String.mk (List.replicate (3 - s.length) '0') ++ s

/-- The filename of an output file (`f"{pagenum:03d}{ext}"`). -/
def OutFile.fileName (o : OutFile) : String := numName o.num ++ o.ext

/-- The `while len(imgs) >= 2` loop of `stitch`: pop two pages, paste the
first on the left and the second on the right of a double-wide white
canvas, save as `f"{pagenum:03d}.png"`, increment `pagenum`. -/
def stitchPairs (width height : Nat) (pagenum : Nat) : List Img → List OutFile
  | img1 :: img2 :: rest =>
    { num := pagenum, ext := ".png", width := width * 2, height := height,
      kind := .spread img1 img2 } :: stitchPairs width height (pagenum + 1) rest
  | _ => []

/-- `stitch`: asserts the list has even length, takes reference
width/height from `imgs[0]` (so `none` models the assertion failure on
odd input and the `IndexError` on empty input), writes the warning page
first (at `width * 2`, with `imgs[0].suffix`) when not skipped and more
than 2 pages remain, then pairs the pages. -/
def stitch (imgs : List Img) (skip_warning_page : Bool) : Option (List OutFile) :=
  if imgs.length % 2 ≠ 0 then none
  else
    match imgs with
    | [] => none
    | first :: rest =>
      if !skip_warning_page && (first :: rest).length > 2 then
        some ({ num := 1, ext := first.suffix, width := first.width * 2,
                height := first.height, kind := .warning } ::
              stitchPairs first.width first.height 2 (first :: rest))
      else
        some (stitchPairs first.width first.height 1 (first :: rest))

/-- A path, split as the source uses it: parent directory, stem, suffix. -/
structure ArchivePath where
  dir : String
  stem : String
  suffix : String
deriving DecidableEq, Repr

/-- `path.name`, i.e. `stem + suffix`. -/
def pathName (p : ArchivePath) : String := p.stem ++ p.suffix

/-- One chapter archive as `convert` observes it: its path, whether the
path exists on disk, the extracted pages in descending filename order,
and whether the `{stem}_original` sibling already exists. -/
structure Chapter where
  path : ArchivePath
  pathExists : Bool
  pages : List Img
  originalSiblingExists : Bool
deriving DecidableEq, Repr

/-- The archive-level part of `extract`: raise `FileNotFoundError` when
the path does not exist or the suffix is not `.cbz`, otherwise unpack
and validate the pages. -/
def chapterExtract (c : Chapter) : Option (Except ExtractError (List Img)) :=
  if !c.pathExists then
    some (.error (.fileNotFound (pathName c.path)))
  else if c.path.suffix ≠ ".cbz" then
    some (.error (.fileNotFound (pathName c.path)))
  else
    extract c.pages

/-- Filesystem milestones of `convert`, in the order the source performs
them: the stitched pages are fully written to `OUTDIR`, the original
archive is moved to its `_original` sibling, the replacement archive is
written at the original path. -/
inductive CEvent where
  | stitchedPages
  | movedOriginalAside
  | wroteReplacementArchive
deriving DecidableEq, Repr

/-- How a call to `convert` terminates: it raised `FileExistsError` at a
naming guard; it caught an extraction error, logged it and returned
normally; it crashed on an unmodelled exception; or it completed and
wrote the given output files. -/
inductive ConvertResult where
  | raisedFileExists (msg : String)
  | skippedAfterExtractError (e : ExtractError)
  | crashed
  | done (outs : List OutFile)
deriving DecidableEq, Repr

/-- `convert`: the naming guards (only when `del_old_cbz` is false),
then `extract` with `FileNotFoundError`/`WrongImageSize` caught and
turned into a normal return, then `stitch`, then — when keeping the
original — `shutil.move(cbz, ORIGINALCBZPATH)` followed by
`create_cbz(OUTDIR, cbz)`.  Returns the outcome and the trace of
filesystem milestones in execution order. -/
def convertRun (c : Chapter) (del_old_cbz skip_warning_page : Bool) :
    ConvertResult × List CEvent :=
  if !del_old_cbz && c.originalSiblingExists then
    (.raisedFileExists (c.path.stem ++ "_original" ++ c.path.suffix), [])
  else if !del_old_cbz && String.endsWith c.path.stem "_original" then
    (.raisedFileExists (pathName c.path), [])
  else
    match chapterExtract c with
    | none => (.crashed, [])
    | some (.error e) => (.skippedAfterExtractError e, [])
    | some (.ok imgs) =>
      match stitch imgs skip_warning_page with
      | none => (.crashed, [])
      | some outs =>
        if !del_old_cbz then
          (.done outs,
           [.stitchedPages, .movedOriginalAside, .wroteReplacementArchive])
        else
          (.done outs, [.stitchedPages, .wroteReplacementArchive])

/-- The outcome of `convert`. -/
def convert (c : Chapter) (del_old_cbz skip_warning_page : Bool) : ConvertResult :=
  (convertRun c del_old_cbz skip_warning_page).1

/-- The filesystem-milestone trace of `convert`. -/
def convertTrace (c : Chapter) (del_old_cbz skip_warning_page : Bool) : List CEvent :=
  (convertRun c del_old_cbz skip_warning_page).2

/-- `process_convert`: runs `convert`, returns `True` on a normal
return, `False` only on `FileExistsError`; `none` models an exception
neither `convert` nor `process_convert` catches. -/
def process_convert (c : Chapter) (del_old_cbz skip_warning_page : Bool) :
    Option Bool :=
  match convert c del_old_cbz skip_warning_page with
  | .raisedFileExists _ => some false
  | .crashed => none
  | .skippedAfterExtractError _ => some true
  | .done _ => some true

/-- The non-volume branch of `main`: map `process_convert` over the
chapters and `exit(1)` iff not all results are `True` (exit code 0
otherwise); `none` models a crashing worker. -/
def batchExitCode (cs : List Chapter) (del_old_cbz skip_warning_page : Bool) :
    Option Nat :=
  let rs := cs.map (fun c => process_convert c del_old_cbz skip_warning_page)
  if rs.contains none then none
  else if rs.all (fun r => r == some true) then some 0
  else some 1

/-- One chapter archive as volume assembly observes it. -/
structure VolChapter where
  path : ArchivePath
  pathExists : Bool
  pages : List Img
deriving DecidableEq, Repr

/-- Observable effects of `convert_volume`, in execution order. -/
inductive VolEvent where
  | chapterStitched (volnum : Nat) (chapterName : String) (numOuts : Nat)
  | chapterFailed (volnum : Nat) (chapterName : String)
  | warningPageWritten
  | finalArchiveWritten (path : String)
  | originalDeleted (name : String)
deriving DecidableEq, Repr

/-- The errors `convert_volume` can raise: the `len(cbzs) > 1`
assertion, `FileExistsError` when the combined output path already
exists (the spec's `AlreadyAssembled`), and `ChildProcessError` when a
chapter failed. -/
inductive VolError where
  | assertionFailed
  | fileExists (path : String)
  | childProcessError (volName : String)
deriving DecidableEq, Repr

/-- The archive-level part of `extract` for a volume chapter. -/
def volChapterExtract (c : VolChapter) : Option (Except ExtractError (List Img)) :=
  if !c.pathExists then
    some (.error (.fileNotFound (pathName c.path)))
  else if c.path.suffix ≠ ".cbz" then
    some (.error (.fileNotFound (pathName c.path)))
  else
    extract c.pages

/-- `extract_stitch_move`: extract and stitch one chapter (with the
warning page skipped), returning `False` when extraction raised
`FileNotFoundError`/`WrongImageSize` and `True` on success, together
with the observable events; `none` models an uncaught exception. -/
def extract_stitch_move (volnum : Nat) (c : VolChapter) :
    Option (Bool × List VolEvent) :=
  match volChapterExtract c with
  | none => none
  | some (.error _) => some (false, [.chapterFailed volnum (pathName c.path)])
  | some (.ok imgs) =>
    match stitch imgs true with
    | none => none
    | some outs =>
      some (true, [.chapterStitched volnum (pathName c.path) outs.length])

/-- Collect a list of `Option`s, failing if any element is `none`. -/
def sequenceOption {α : Type} : List (Option α) → Option (List α)
  | [] => some []
  | none :: _ => none
  | some a :: rest => (sequenceOption rest).map (fun l => a :: l)

/-- The combined output path of a volume:
`cbzs[0].parent / f"{cbzs[0].stem}-{cbzs[-1].name}"`. -/
def volumeFinalPath (c0 : VolChapter) (rest : List VolChapter) : String :=
  c0.path.dir ++ "/" ++ (c0.path.stem ++ "-" ++ pathName (rest.getLastD c0).path)

/-- `convert_volume`: asserts at least two archives, derives the
combined output path `cbzs[0].parent / f"{cbzs[0].stem}-{cbzs[-1].name}"`,
raises `FileExistsError` if it already exists, otherwise runs
`extract_stitch_move` over the reversed chapter list (numbered from 1),
aborts with `ChildProcessError` if any chapter failed, else optionally
writes the shared warning page, builds the combined archive at the
final path, and optionally deletes the originals.  Returns the event
list and the outcome (`none` for a crash). -/
def convert_volume (cbzs : List VolChapter) (existing : List String)
    (del_old_cbz skip_warning_page : Bool) :
    List VolEvent × Option (Except VolError Unit) :=
  match cbzs with
  | [] => ([], some (.error .assertionFailed))
  | [_] => ([], some (.error .assertionFailed))
  | c0 :: rest =>
    if existing.contains (volumeFinalPath c0 rest) then
      ([], some (.error (.fileExists (volumeFinalPath c0 rest))))
    else
      match sequenceOption ((List.enumFrom 1 ((c0 :: rest).reverse)).map
          (fun p => extract_stitch_move p.1 p.2)) with
      | none => ([], none)
      | some rs =>
        if !(rs.all (fun r => r.1)) then
          (rs.flatMap (fun r => r.2),
           some (.error (.childProcessError
             (c0.path.stem ++ "-" ++ pathName (rest.getLastD c0).path))))
        else
          (rs.flatMap (fun r => r.2) ++
            (if !skip_warning_page then [VolEvent.warningPageWritten] else []) ++
            [.finalArchiveWritten (volumeFinalPath c0 rest)] ++
            (if del_old_cbz then
              (c0 :: rest).map (fun c => VolEvent.originalDeleted (pathName c.path))
             else []),
           some (.ok ()))

/-- Whether an `extract` run raised an error. -/
def exceptFailed {α : Type} : Except ExtractError α → Bool
  | .error _ => true
  | .ok _ => false

/-! ## Concrete pages, chapters and volumes used as test inputs -/

/-- A non-white `.png` page. -/
def mkPage (stem : String) (w h : Nat) : Img :=
  { stem := stem, suffix := ".png", width := w, height := h,
    mode := "RGB", uniformWhite := false }

/-- A uniformly white `.png` page. -/
def whitePage (stem : String) (w h : Nat) : Img :=
  { stem := stem, suffix := ".png", width := w, height := h,
    mode := "RGB", uniformWhite := true }

/-- A non-white `.jpg` page. -/
def jpgPage (stem : String) (w h : Nat) : Img :=
  { stem := stem, suffix := ".jpg", width := w, height := h,
    mode := "RGB", uniformWhite := false }

/-- A chapter whose middle page is already a spread (twice the
reference dimensions), so validation fails on it. -/
def c1badChapter : Chapter :=
  { path := { dir := "/manga", stem := "ch2", suffix := ".cbz" },
    pathExists := true,
    pages := [mkPage "003" 1000 1500, mkPage "002" 2000 3000,
              mkPage "001" 1000 1500],
    originalSiblingExists := false }

/-- A chapter whose archive path does not exist on disk. -/
def c1missingChapter : Chapter :=
  { path := { dir := "/manga", stem := "gone", suffix := ".cbz" },
    pathExists := false,
    pages := [],
    originalSiblingExists := false }

/-- A well-formed two-page chapter. -/
def c9chapter : Chapter :=
  { path := { dir := "/manga", stem := "ch1", suffix := ".cbz" },
    pathExists := true,
    pages := [mkPage "002" 1000 1500, mkPage "001" 1000 1500],
    originalSiblingExists := false }

/-- A well-formed two-page volume chapter. -/
def volA : VolChapter :=
  { path := { dir := "/m", stem := "ch1", suffix := ".cbz" },
    pathExists := true,
    pages := [mkPage "002" 1000 1500, mkPage "001" 1000 1500] }

/-- A second well-formed two-page volume chapter. -/
def volB : VolChapter :=
  { path := { dir := "/m", stem := "ch2", suffix := ".cbz" },
    pathExists := true,
    pages := [mkPage "002" 1000 1500, mkPage "001" 1000 1500] }

/-! ## Helper lemmas -/

/-- Unfolding equation for `extract` on a nonempty list. -/
theorem extract_cons (first : Img) (rest : List Img) :
    extract (first :: rest) = some (extractNE first rest) := rfl

/-- When the last page of the descending order passes the dimension
check, no substitution happens. -/
theorem substituteFirstPage_id (first : Img) (rest : List Img)
    (h : incorrect_dimensions first.width first.height (rest.getLastD first) = false) :
    substituteFirstPage first rest = first :: rest := by
  unfold substituteFirstPage
  rw [h]
  rfl

/-- When the last page of the descending order fails the dimension
check and is uniform white, it is replaced by a fresh blank page at
reference dimensions. -/
theorem substituteFirstPage_replace (first : Img) (rest : List Img)
    (hbad : incorrect_dimensions first.width first.height (rest.getLastD first) = true)
    (hwhite : (rest.getLastD first).uniformWhite = true) :
    substituteFirstPage first rest =
      (first :: rest).dropLast ++
        [blankPage first.width first.height first.mode first.suffix] := by
  unfold substituteFirstPage
  rw [hbad, hwhite]
  rfl

/-- When every page after substitution passes the dimension check,
`extractNE` succeeds, inserting the blank page at the front exactly
when the substituted sequence has odd length. -/
theorem extractNE_of_all_pass (first : Img) (rest : List Img)
    (hall : ∀ p ∈ substituteFirstPage first rest,
      incorrect_dimensions first.width first.height p = false) :
    extractNE first rest =
      if (substituteFirstPage first rest).length % 2 ≠ 0 then
        .ok (blankPage first.width first.height first.mode first.suffix ::
              substituteFirstPage first rest)
      else .ok (substituteFirstPage first rest) := by
  unfold extractNE
  rw [List.find?_eq_none.mpr (by intro x hx; simp [hall x hx])]

/-- A page that passes the dimension check fits within the reference. -/
theorem width_height_le_of_pass {W H : Nat} {p : Img}
    (h : incorrect_dimensions W H p = false) : p.width ≤ W ∧ p.height ≤ H := by
  simp only [incorrect_dimensions, Bool.or_eq_false_iff, Bool.and_eq_false_iff,
    decide_eq_false_iff_not, not_lt, not_le] at h
  omega

/-- A page at exactly the reference dimensions passes the dimension
check as soon as the reference width exceeds the 100-pixel tolerance
window around half of itself. -/
theorem pass_of_eq_ref {W H : Nat} {p : Img} (hw : p.width = W) (hh : p.height = H)
    (hW : 100 < W) : incorrect_dimensions W H p = false := by
  simp only [incorrect_dimensions, Bool.or_eq_false_iff, Bool.and_eq_false_iff,
    decide_eq_false_iff_not, not_lt, not_le, hw, hh]
  omega

/-- The numbers assigned by the pairing loop form a contiguous range. -/
theorem stitchPairs_map_num (width height : Nat) :
    ∀ (n : Nat) (l : List Img),
      (stitchPairs width height n l).map OutFile.num = List.range' n (l.length / 2)
  | _, [] => by simp [stitchPairs]
  | _, [_] => by simp [stitchPairs]
  | n, a :: b :: rest => by
    rw [stitchPairs]
    have hlen : (a :: b :: rest).length / 2 = rest.length / 2 + 1 := by
      simp only [List.length_cons]
      omega
    rw [hlen, List.range'_succ, List.map_cons, stitchPairs_map_num width height (n + 1) rest]

/-- The pairing loop produces one output per two input pages. -/
theorem stitchPairs_length (width height n : Nat) (l : List Img) :
    (stitchPairs width height n l).length = l.length / 2 := by
  have h := congrArg List.length (stitchPairs_map_num width height n l)
  simpa using h

/-- On an even-length list, the pairing loop consumes the whole input,
two pages per spread, left page first. -/
theorem stitchPairs_sources (width height : Nat) :
    ∀ (n : Nat) (l : List Img), l.length % 2 = 0 →
      (stitchPairs width height n l).flatMap OutFile.sources = l
  | _, [], _ => by simp [stitchPairs]
  | _, [_], h => by simp at h
  | n, a :: b :: rest, h => by
    rw [stitchPairs, List.flatMap_cons,
      stitchPairs_sources width height (n + 1) rest (by simp only [List.length_cons] at h; omega)]
    rfl

/-- Every output of the pairing loop is a double-wide `.png` spread. -/
theorem stitchPairs_mem (width height : Nat) :
    ∀ (n : Nat) (l : List Img) (o : OutFile), o ∈ stitchPairs width height n l →
      o.isWarning = false ∧ o.ext = ".png" ∧ o.width = width * 2 ∧ o.height = height
  | _, [], _, h => by simp [stitchPairs] at h
  | _, [_], _, h => by simp [stitchPairs] at h
  | n, a :: b :: rest, o, h => by
    rw [stitchPairs] at h
    rcases List.mem_cons.mp h with h' | h'
    · subst h'
      exact ⟨rfl, rfl, rfl, rfl⟩
    · exact stitchPairs_mem width height (n + 1) rest o h'

/-- Unfolding equation for `stitch` on a nonempty list. -/
theorem stitch_cons (first : Img) (rest : List Img) (skip : Bool) :
    stitch (first :: rest) skip =
      if (first :: rest).length % 2 ≠ 0 then none
      else if !skip && (first :: rest).length > 2 then
        some ({ num := 1, ext := first.suffix, width := first.width * 2,
                height := first.height, kind := .warning } ::
              stitchPairs first.width first.height 2 (first :: rest))
      else some (stitchPairs first.width first.height 1 (first :: rest)) := by
  rfl

/-- Core behaviour of `stitch` on a nonempty even-length input: exactly
half as many spreads as input pages, the warning page present (first,
double-wide) exactly when requested and more than two pages remain,
contiguous numbering from 1, and full consumption of the input. -/
theorem stitch_core (first : Img) (rest : List Img) (skip : Bool)
    (heven : (first :: rest).length % 2 = 0) :
    ∃ outs, stitch (first :: rest) skip = some outs ∧
      (outs.filter (fun o => !o.isWarning)).length = (first :: rest).length / 2 ∧
      ((outs.filter (fun o => o.isWarning)).length =
        if skip = false ∧ (first :: rest).length > 2 then 1 else 0) ∧
      (∀ o ∈ outs, o.isWarning = true →
        outs.head? = some o ∧ o.width = first.width * 2) ∧
      outs.map OutFile.num = List.range' 1 outs.length ∧
      outs.flatMap OutFile.sources = first :: rest := by
  rw [stitch_cons, if_neg (by omega)]
  have hpairs : ∀ (n : Nat) (o : OutFile),
      o ∈ stitchPairs first.width first.height n (first :: rest) →
      (!o.isWarning) = true := by
    intro n o ho
    rw [(stitchPairs_mem first.width first.height n (first :: rest) o ho).1]
    rfl
  by_cases hc : (!skip && decide ((first :: rest).length > 2)) = true
  · rw [if_pos hc]
    rw [Bool.and_eq_true, Bool.not_eq_true', decide_eq_true_eq] at hc
    refine ⟨_, rfl, ?_, ?_, ?_, ?_, ?_⟩
    · rw [List.filter_cons_of_neg (by simp [OutFile.isWarning]),
        List.filter_eq_self.mpr (hpairs 2), stitchPairs_length]
    · rw [List.filter_cons_of_pos (by rfl),
        List.filter_eq_nil_iff.mpr (by
          intro o ho
          rw [(stitchPairs_mem first.width first.height 2 (first :: rest) o ho).1]
          simp),
        if_pos hc]
      rfl
    · intro o ho hw
      rcases List.mem_cons.mp ho with h' | h'
      · subst h'
        exact ⟨rfl, rfl⟩
      · rw [(stitchPairs_mem first.width first.height 2 (first :: rest) o h').1] at hw
        cases hw
    · simp only [List.map_cons, stitchPairs_map_num, List.length_cons, stitchPairs_length]
      rw [List.range'_succ]
    · rw [List.flatMap_cons, stitchPairs_sources first.width first.height 2 (first :: rest) heven]
      rfl
  · rw [if_neg hc]
    rw [Bool.and_eq_true, Bool.not_eq_true', decide_eq_true_eq] at hc
    refine ⟨_, rfl, ?_, ?_, ?_, ?_, ?_⟩
    · rw [List.filter_eq_self.mpr (hpairs 1), stitchPairs_length]
    · rw [List.filter_eq_nil_iff.mpr (by
        intro o ho
        rw [(stitchPairs_mem first.width first.height 1 (first :: rest) o ho).1]
        simp),
        if_neg hc]
      rfl
    · intro o ho hw
      rw [(stitchPairs_mem first.width first.height 1 (first :: rest) o ho).1] at hw
      cases hw
    · rw [stitchPairs_map_num, stitchPairs_length]
    · exact stitchPairs_sources first.width first.height 1 (first :: rest) heven

/-- The dimension check in arithmetic form: a page fails iff its width
or height strictly exceeds the reference, or its doubled width lies in
the inclusive window [reference width − 100, reference width + 100]. -/
theorem incorrect_dimensions_iff (W H : Nat) (p : Img) :
    incorrect_dimensions W H p = true ↔
      (W < p.width ∨ H < p.height ∨
        (W - 100 ≤ p.width * 2 ∧ p.width * 2 ≤ W + 100)) := by
  simp only [incorrect_dimensions, Bool.or_eq_true, Bool.and_eq_true,
    decide_eq_true_eq]
  tauto

/-! ## Claims -/

/-- C1 counterexample: a chapter whose extraction fails with a
dimension mismatch (an interior page is already a spread) makes
`convert` return normally, so `process_convert` reports success and the
batch exit status is 0 — contradicting the claim that any chapter
failure (including `DimensionMismatch`) yields a false per-chapter
signal and a non-zero exit status. -/
theorem c1_extract_failure_reports_success :
    convert c1badChapter false false =
      ConvertResult.skippedAfterExtractError
        (.wrongImageSize "002.png" 2000 3000 1000 1500) ∧
    process_convert c1badChapter false false = some true ∧
    batchExitCode [c1badChapter] false false = some 0 := by decide

/-- C1 (amended): the per-chapter failure signal is `false` exactly
when `convert` raises `FileExistsError` at a naming guard; extraction
and validation failures (`FileNotFoundError`, `WrongImageSize`) are
caught inside `convert`, which returns normally, so those chapters are
reported as successes and do not make the exit status non-zero. -/
theorem c1_failure_signal_iff_naming_conflict (c : Chapter)
    (del_old_cbz skip_warning_page : Bool) :
    (process_convert c del_old_cbz skip_warning_page = some false ↔
      ∃ m, convert c del_old_cbz skip_warning_page =
        ConvertResult.raisedFileExists m) ∧
    ∀ e, convert c del_old_cbz skip_warning_page =
        ConvertResult.skippedAfterExtractError e →
      process_convert c del_old_cbz skip_warning_page = some true := by
  unfold process_convert
  rcases h : convert c del_old_cbz skip_warning_page with m | e | _ | outs <;>
    simp [h]

/-- C1 amended, instantiated at a concrete chapter whose archive path
is missing: the conversion fails but the signal is `true`. -/
theorem c1_failure_signal_iff_naming_conflict_witness :
    process_convert c1missingChapter false false = some true :=
  (c1_failure_signal_iff_naming_conflict c1missingChapter false false).2
    (.fileNotFound "gone.cbz") (by decide)

/-- C2 counterexample: `extract` accepts a two-page chapter whose
second page is strictly smaller than the reference page, so the
returned sequence contains an element that does not have exactly the
reference width and height. -/
theorem c2_smaller_page_accepted :
    extract [mkPage "002" 1000 1500, mkPage "001" 900 1400] =
      some (.ok [mkPage "002" 1000 1500, mkPage "001" 900 1400]) ∧
    (mkPage "001" 900 1400).width ≠ (mkPage "002" 1000 1500).width ∧
    (mkPage "001" 900 1400).height ≠ (mkPage "002" 1000 1500).height := by decide

/-- C2 (amended): every sequence `extract` returns without error has
even length, and every element of it (including any synthesized blank
page) fits *within* the reference dimensions — width at most the
reference width and height at most the reference height — but need not
match them exactly. -/
theorem c2_extract_even_and_bounded (first : Img) (rest res : List Img)
    (h : extract (first :: rest) = some (.ok res)) :
    res.length % 2 = 0 ∧
    ∀ p ∈ res, p.width ≤ first.width ∧ p.height ≤ first.height := by
  rw [extract_cons] at h
  have h' : extractNE first rest = .ok res := Option.some.inj h
  unfold extractNE at h'
  cases hf : (substituteFirstPage first rest).find?
      (fun p => incorrect_dimensions first.width first.height p) with
  | some p =>
    rw [hf] at h'
    cases h'
  | none =>
    rw [hf] at h'
    have hall : ∀ p ∈ substituteFirstPage first rest,
        incorrect_dimensions first.width first.height p = false := by
      intro p hp
      have := List.find?_eq_none.mp hf p hp
      simpa using this
    by_cases hodd : (substituteFirstPage first rest).length % 2 ≠ 0
    · rw [if_pos hodd] at h'
      have hres := (Except.ok.inj h').symm
      constructor
      · rw [hres, List.length_cons]
        omega
      · intro p hp
        rw [hres] at hp
        rcases List.mem_cons.mp hp with h1 | h1
        · subst h1
          exact ⟨Nat.le_refl _, Nat.le_refl _⟩
        · exact width_height_le_of_pass (hall p h1)
    · rw [if_neg hodd] at h'
      have hres := (Except.ok.inj h').symm
      constructor
      · rw [hres]
        omega
      · intro p hp
        rw [hres] at hp
        exact width_height_le_of_pass (hall p hp)

/-- C2 amended, instantiated at a chapter with a smaller second page. -/
theorem c2_extract_even_and_bounded_witness :
    ([mkPage "002" 1000 1500, mkPage "001" 900 1400] : List Img).length % 2 = 0 ∧
    ∀ p ∈ ([mkPage "002" 1000 1500, mkPage "001" 900 1400] : List Img),
      p.width ≤ (mkPage "002" 1000 1500).width ∧
      p.height ≤ (mkPage "002" 1000 1500).height :=
  c2_extract_even_and_bounded (mkPage "002" 1000 1500) [mkPage "001" 900 1400]
    [mkPage "002" 1000 1500, mkPage "001" 900 1400] (by decide)

/-- C3 counterexample: an even-length sequence of identical 100×150
pages is rejected on re-validation: doubling the 100-pixel width lands
inside the inclusive tolerance window around the 100-pixel reference
width, so `extract` raises `WrongImageSize` on a perfectly uniform
sequence, contrary to the claim that this never happens. -/
theorem c3_uniform_narrow_pages_rejected :
    (∀ p ∈ [mkPage "002" 100 150, mkPage "001" 100 150],
      p.width = 100 ∧ p.height = 150 ∧ p.mode = "RGB") ∧
    ([mkPage "002" 100 150, mkPage "001" 100 150] : List Img).length % 2 = 0 ∧
    extract [mkPage "002" 100 150, mkPage "001" 100 150] =
      some (.error (.wrongImageSize "002.png" 100 150 100 150)) := by decide

/-- C3 (amended): re-validating an even-length sequence of pages with
identical width, height and mode synthesizes no blank page and raises
no error, provided the common width exceeds 100 pixels — a condition
every sequence actually returned by a successful validation satisfies,
since a page at the reference width passes the check only when its
doubled width overshoots the tolerance window. -/
theorem c3_idempotent_wide_uniform (first : Img) (rest : List Img)
    (huni : ∀ p ∈ first :: rest,
      p.width = first.width ∧ p.height = first.height ∧ p.mode = first.mode)
    (heven : (first :: rest).length % 2 = 0)
    (hW : 100 < first.width) :
    extract (first :: rest) = some (.ok (first :: rest)) := by
  have hpass : ∀ p ∈ first :: rest,
      incorrect_dimensions first.width first.height p = false := by
    intro p hp
    obtain ⟨hw, hh, _⟩ := huni p hp
    exact pass_of_eq_ref hw hh hW
  have hsub : substituteFirstPage first rest = first :: rest :=
    substituteFirstPage_id first rest
      (hpass _ (List.getLastD_mem_cons rest first))
  rw [extract_cons,
    extractNE_of_all_pass first rest (by rw [hsub]; exact hpass), hsub,
    if_neg (by omega)]

/-- C3 amended, instantiated at two identical 1000×1500 pages. -/
theorem c3_idempotent_wide_uniform_witness :
    extract [mkPage "002" 1000 1500, mkPage "001" 1000 1500] =
      some (.ok [mkPage "002" 1000 1500, mkPage "001" 1000 1500]) :=
  c3_idempotent_wide_uniform (mkPage "002" 1000 1500)
    [mkPage "001" 1000 1500] (by decide) (by decide) (by decide)

/-- C4: the validator raises `WrongImageSize` if and only if some page
of the sequence, after any first-page substitution, has width or height
strictly exceeding the reference width or height, or has doubled width
inside the inclusive tolerance window [reference width − 100,
reference width + 100]; the error carries the offending page's name,
its dimensions and the reference dimensions. -/
theorem c4_mismatch_iff_bad_page (first : Img) (rest : List Img) :
    (exceptFailed (extractNE first rest) = true ↔
      ∃ p ∈ substituteFirstPage first rest,
        (first.width < p.width ∨ first.height < p.height ∨
          (first.width - 100 ≤ p.width * 2 ∧ p.width * 2 ≤ first.width + 100))) ∧
    ∀ e, extractNE first rest = .error e →
      ∃ p ∈ substituteFirstPage first rest,
        incorrect_dimensions first.width first.height p = true ∧
        e = .wrongImageSize p.name p.width p.height first.width first.height := by
  cases hf : (substituteFirstPage first rest).find?
      (fun p => incorrect_dimensions first.width first.height p) with
  | some p =>
    have hmem := List.mem_of_find?_eq_some hf
    have hp : incorrect_dimensions first.width first.height p = true := by
      simpa using List.find?_some hf
    have hE : extractNE first rest =
        .error (.wrongImageSize p.name p.width p.height first.width first.height) := by
      unfold extractNE
      rw [hf]
    constructor
    · rw [hE]
      simp only [exceptFailed, true_iff]
      exact ⟨p, hmem, (incorrect_dimensions_iff first.width first.height p).mp hp⟩
    · intro e he
      rw [hE] at he
      exact ⟨p, hmem, hp, (Except.error.inj he).symm⟩
  | none =>
    have hall := List.find?_eq_none.mp hf
    have hE : extractNE first rest =
        if (substituteFirstPage first rest).length % 2 ≠ 0 then
          .ok (blankPage first.width first.height first.mode first.suffix ::
                substituteFirstPage first rest)
        else .ok (substituteFirstPage first rest) := by
      unfold extractNE
      rw [hf]
    have hno : ¬∃ p ∈ substituteFirstPage first rest,
        (first.width < p.width ∨ first.height < p.height ∨
          (first.width - 100 ≤ p.width * 2 ∧ p.width * 2 ≤ first.width + 100)) := by
      rintro ⟨p, hp, hcond⟩
      exact hall p hp
        ((incorrect_dimensions_iff first.width first.height p).mpr hcond)
    constructor
    · rw [hE]
      split <;> exact iff_of_false (by simp [exceptFailed]) hno
    · intro e he
      rw [hE] at he
      split at he <;> exact Except.noConfusion he

/-- C4, instantiated at a chapter containing a spread-sized page. -/
theorem c4_mismatch_iff_bad_page_witness :
    ∃ p ∈ substituteFirstPage (mkPage "003" 1000 1500)
        [mkPage "002" 2000 3000, mkPage "001" 1000 1500],
      incorrect_dimensions 1000 1500 p = true ∧
      ExtractError.wrongImageSize "002.png" 2000 3000 1000 1500 =
        .wrongImageSize p.name p.width p.height 1000 1500 :=
  (c4_mismatch_iff_bad_page (mkPage "003" 1000 1500)
      [mkPage "002" 2000 3000, mkPage "001" 1000 1500]).2
    (.wrongImageSize "002.png" 2000 3000 1000 1500) (by decide)

/-- C5: for a chapter with an odd page count N whose pages all pass the
dimension check, the validator inserts exactly one synthetic blank page
at reference dimensions at the front of the descending-ordered sequence
(the chronological end of the archive) — the result is the blank page
consed onto the unchanged input — and stitching the result yields
exactly (N + 1) / 2 spreads, plus one warning page exactly when
requested and applicable. -/
theorem c5_odd_chapter_blank_and_spreads (first : Img) (rest : List Img)
    (hodd : (first :: rest).length % 2 = 1)
    (hpass : ∀ p ∈ first :: rest,
      incorrect_dimensions first.width first.height p = false) :
    extract (first :: rest) =
      some (.ok (blankPage first.width first.height first.mode first.suffix ::
        first :: rest)) ∧
    ∀ skip_warning_page, ∃ outs,
      stitch (blankPage first.width first.height first.mode first.suffix ::
          first :: rest) skip_warning_page = some outs ∧
      (outs.filter (fun o => !o.isWarning)).length =
        ((first :: rest).length + 1) / 2 ∧
      ((outs.filter (fun o => o.isWarning)).length =
        if skip_warning_page = false ∧ (first :: rest).length + 1 > 2 then 1
        else 0) := by
  have hsub : substituteFirstPage first rest = first :: rest :=
    substituteFirstPage_id first rest
      (hpass _ (List.getLastD_mem_cons rest first))
  constructor
  · rw [extract_cons,
      extractNE_of_all_pass first rest (by rw [hsub]; exact hpass), hsub,
      if_pos (by omega)]
  · intro skip_warning_page
    obtain ⟨outs, hs, h1, h2, -, -, -⟩ :=
      stitch_core (blankPage first.width first.height first.mode first.suffix)
        (first :: rest) skip_warning_page
        (by simp only [List.length_cons] at hodd ⊢; omega)
    refine ⟨outs, hs, ?_, ?_⟩
    · rw [h1]
      simp only [List.length_cons]
    · rw [h2]
      simp only [List.length_cons]

/-- C5, instantiated at three identical 1000×1500 pages. -/
theorem c5_odd_chapter_blank_and_spreads_witness :
    extract [mkPage "003" 1000 1500, mkPage "002" 1000 1500,
        mkPage "001" 1000 1500] =
      some (.ok (blankPage 1000 1500 "RGB" ".png" ::
        [mkPage "003" 1000 1500, mkPage "002" 1000 1500,
          mkPage "001" 1000 1500])) :=
  (c5_odd_chapter_blank_and_spreads (mkPage "003" 1000 1500)
    [mkPage "002" 1000 1500, mkPage "001" 1000 1500]
    (by decide) (by decide)).1

/-- C6: on a validated even-length input of N pages, the stitcher
writes exactly N / 2 spreads; exactly one warning page appears — first,
at double the reference width — precisely when the warning is requested
and N > 2; the output files are numbered contiguously from 1; and the
input pages are fully consumed, two per spread, in order. -/
theorem c6_stitch_counts_and_numbering (first : Img) (rest : List Img)
    (skip_warning_page : Bool) (heven : (first :: rest).length % 2 = 0) :
    ∃ outs, stitch (first :: rest) skip_warning_page = some outs ∧
      (outs.filter (fun o => !o.isWarning)).length = (first :: rest).length / 2 ∧
      ((outs.filter (fun o => o.isWarning)).length =
        if skip_warning_page = false ∧ (first :: rest).length > 2 then 1
        else 0) ∧
      (∀ o ∈ outs, o.isWarning = true →
        outs.head? = some o ∧ o.width = first.width * 2) ∧
      outs.map OutFile.num = List.range' 1 outs.length ∧
      outs.flatMap OutFile.sources = first :: rest :=
  stitch_core first rest skip_warning_page heven

/-- C6, instantiated at four identical pages with the warning page
requested: two spreads, one warning page, numbers 1, 2, 3. -/
theorem c6_stitch_counts_and_numbering_witness :
    ∃ outs, stitch [mkPage "004" 1000 1500, mkPage "003" 1000 1500,
        mkPage "002" 1000 1500, mkPage "001" 1000 1500] false = some outs ∧
      (outs.filter (fun o => !o.isWarning)).length = 2 ∧
      (outs.filter (fun o => o.isWarning)).length = 1 ∧
      outs.map OutFile.num = List.range' 1 outs.length := by
  obtain ⟨outs, hs, h1, h2, -, h4, -⟩ :=
    c6_stitch_counts_and_numbering (mkPage "004" 1000 1500)
      [mkPage "003" 1000 1500, mkPage "002" 1000 1500, mkPage "001" 1000 1500]
      false (by decide)
  exact ⟨outs, hs, h1, h2, h4⟩

/-- C7 counterexample: the chronologically first page (last in
descending order) is oversized well beyond any tolerance and uniform
white, so it *is* substituted with a blank — yet validation of the
chapter still raises `WrongImageSize`, because another page violates
the dimension check; the claim's unconditional "validation of the
chapter then succeeds" is therefore false. -/
theorem c7_substituted_chapter_can_still_fail :
    (whitePage "001" 2000 3000).width > (mkPage "003" 1000 1500).width ∧
    (whitePage "001" 2000 3000).height > (mkPage "003" 1000 1500).height ∧
    (whitePage "001" 2000 3000).uniformWhite = true ∧
    substituteFirstPage (mkPage "003" 1000 1500)
        [mkPage "002" 2000 3000, whitePage "001" 2000 3000] =
      [mkPage "003" 1000 1500, mkPage "002" 2000 3000,
        blankPage 1000 1500 "RGB" ".png"] ∧
    extract [mkPage "003" 1000 1500, mkPage "002" 2000 3000,
        whitePage "001" 2000 3000] =
      some (.error (.wrongImageSize "002.png" 2000 3000 1000 1500)) := by decide

/-- C7 (amended): when the last element of the descending order fails
the dimension check and is uniform white, the validator replaces it
with a freshly synthesized blank page at reference dimensions, and
validation succeeds provided the chapter has at least two pages and
every *other* page passes the dimension check (which in particular
forces the reference width above the tolerance window, so the
substituted blank also passes). -/
theorem c7_white_oversized_first_page_replaced (first : Img) (rest : List Img)
    (hne : rest ≠ [])
    (hbad : incorrect_dimensions first.width first.height
      (rest.getLastD first) = true)
    (hwhite : (rest.getLastD first).uniformWhite = true)
    (hothers : ∀ p ∈ (first :: rest).dropLast,
      incorrect_dimensions first.width first.height p = false) :
    substituteFirstPage first rest =
      (first :: rest).dropLast ++
        [blankPage first.width first.height first.mode first.suffix] ∧
    ∃ res, extractNE first rest = .ok res := by
  have hsub := substituteFirstPage_replace first rest hbad hwhite
  have hfirstmem : first ∈ (first :: rest).dropLast := by
    rw [List.dropLast_cons_of_ne_nil hne]
    exact List.mem_cons_self first rest.dropLast
  have hW : 100 < first.width := by
    have hfp := hothers first hfirstmem
    simp only [incorrect_dimensions, Bool.or_eq_false_iff, Bool.and_eq_false_iff,
      decide_eq_false_iff_not, not_lt, not_le] at hfp
    omega
  have hall : ∀ p ∈ substituteFirstPage first rest,
      incorrect_dimensions first.width first.height p = false := by
    rw [hsub]
    intro p hp
    rcases List.mem_append.mp hp with h' | h'
    · exact hothers p h'
    · rw [List.mem_singleton.mp h']
      exact pass_of_eq_ref rfl rfl hW
  refine ⟨hsub, ?_⟩
  rw [extractNE_of_all_pass first rest hall]
  split
  · exact ⟨_, rfl⟩
  · exact ⟨_, rfl⟩

/-- C7 amended, instantiated at the spec's Scenario C: four uniform
pages plus a pure-white oversized chronologically-first page. -/
theorem c7_white_oversized_first_page_replaced_witness :
    substituteFirstPage (mkPage "005" 1000 1500)
        [mkPage "004" 1000 1500, mkPage "003" 1000 1500,
          mkPage "002" 1000 1500, whitePage "001" 2000 3000] =
      [mkPage "005" 1000 1500, mkPage "004" 1000 1500, mkPage "003" 1000 1500,
        mkPage "002" 1000 1500] ++ [blankPage 1000 1500 "RGB" ".png"] ∧
    ∃ res, extractNE (mkPage "005" 1000 1500)
        [mkPage "004" 1000 1500, mkPage "003" 1000 1500,
          mkPage "002" 1000 1500, whitePage "001" 2000 3000] = .ok res :=
  c7_white_oversized_first_page_replaced (mkPage "005" 1000 1500)
    [mkPage "004" 1000 1500, mkPage "003" 1000 1500,
      mkPage "002" 1000 1500, whitePage "001" 2000 3000]
    (by decide) (by decide) (by decide) (by decide)

/-- C8: for two or more input archives, volume assembly derives the
combined output path by the rule `first.stem + "-" + last.name` inside
the first archive's directory, and when a file already exists at that
path it fails immediately with `FileExistsError`: no chapter work runs
and nothing is written to the final location (the event trace is
empty). -/
theorem c8_volume_rejects_existing_path (c0 : VolChapter)
    (rest : List VolChapter) (existing : List String)
    (del_old_cbz skip_warning_page : Bool)
    (hlen : rest ≠ [])
    (hex : existing.contains (volumeFinalPath c0 rest) = true) :
    volumeFinalPath c0 rest =
      c0.path.dir ++ "/" ++
        (c0.path.stem ++ "-" ++ pathName (rest.getLastD c0).path) ∧
    convert_volume (c0 :: rest) existing del_old_cbz skip_warning_page =
      ([], some (.error (.fileExists (volumeFinalPath c0 rest)))) := by
  cases rest with
  | nil => exact absurd rfl hlen
  | cons r0 rs =>
    refine ⟨rfl, ?_⟩
    simp only [convert_volume]
    rw [if_pos hex]

/-- C8, instantiated at two concrete chapters whose combined path
`/m/ch1-ch2.cbz` already exists. -/
theorem c8_volume_rejects_existing_path_witness :
    volumeFinalPath volA [volB] =
      volA.path.dir ++ "/" ++
        (volA.path.stem ++ "-" ++ pathName ([volB].getLastD volA).path) ∧
    convert_volume [volA, volB] ["/m/ch1-ch2.cbz"] false false =
      ([], some (.error (.fileExists (volumeFinalPath volA [volB])))) :=
  c8_volume_rejects_existing_path volA [volB] ["/m/ch1-ch2.cbz"] false false
    (by decide) (by decide)

/-- C9 counterexample: in a successful in-place conversion that keeps
the original (renaming configured), the trace shows the original moved
aside *before* the replacement archive is written at the original path,
refuting the claim that staging happens only after the replacement
archive build completes. -/
theorem c9_staging_precedes_archive_write :
    convertTrace c9chapter false false =
      [CEvent.stitchedPages, CEvent.movedOriginalAside,
        CEvent.wroteReplacementArchive] ∧
    (convertTrace c9chapter false false).indexOf CEvent.movedOriginalAside <
      (convertTrace c9chapter false false).indexOf
        CEvent.wroteReplacementArchive := by decide

/-- C9 (amended): with renaming configured, whenever the original is
staged aside, the trace is exactly: stitched replacement content fully
built, then the original moved aside, then the replacement archive
written at the original path — staging follows the completed stitch but
precedes the archive build at the original path. -/
theorem c9_staging_after_stitch_before_write (c : Chapter)
    (skip_warning_page : Bool)
    (h : CEvent.movedOriginalAside ∈ convertTrace c false skip_warning_page) :
    convertTrace c false skip_warning_page =
      [CEvent.stitchedPages, CEvent.movedOriginalAside,
        CEvent.wroteReplacementArchive] := by
  unfold convertTrace convertRun at h ⊢
  repeat' split at h
  all_goals simp_all

/-- C9 amended, instantiated at a concrete two-page chapter with the
warning page skipped. -/
theorem c9_staging_after_stitch_before_write_witness :
    convertTrace c9chapter false true =
      [CEvent.stitchedPages, CEvent.movedOriginalAside,
        CEvent.wroteReplacementArchive] :=
  c9_staging_after_stitch_before_write c9chapter true (by decide)

/-- C10: every stitched spread is written with the fixed extension
`.png`, whatever the source pages' format, while the warning page is
written with the first source page's extension; hence for a chapter
whose pages are not `.png` files, the warning page's extension differs
from every spread's extension. -/
theorem c10_spread_png_warning_source_ext (first : Img) (rest : List Img)
    (skip_warning_page : Bool) (outs : List OutFile)
    (h : stitch (first :: rest) skip_warning_page = some outs) :
    (∀ o ∈ outs, o.isWarning = false → o.ext = ".png") ∧
    (∀ o ∈ outs, o.isWarning = true → o.ext = first.suffix) ∧
    (first.suffix ≠ ".png" →
      ∀ w ∈ outs, w.isWarning = true → ∀ s ∈ outs, s.isWarning = false →
        w.ext ≠ s.ext) := by
  have key : (∀ o ∈ outs, o.isWarning = false → o.ext = ".png") ∧
      (∀ o ∈ outs, o.isWarning = true → o.ext = first.suffix) := by
    rw [stitch_cons] at h
    by_cases hodd : (first :: rest).length % 2 ≠ 0
    · rw [if_pos hodd] at h
      cases h
    · rw [if_neg hodd] at h
      by_cases hc : (!skip_warning_page && decide ((first :: rest).length > 2)) = true
      · rw [if_pos hc] at h
        obtain rfl := (Option.some.inj h).symm
        constructor
        · intro o ho hw
          rcases List.mem_cons.mp ho with h' | h'
          · subst h'
            cases hw
          · exact (stitchPairs_mem first.width first.height 2 (first :: rest) o h').2.1
        · intro o ho hw
          rcases List.mem_cons.mp ho with h' | h'
          · subst h'
            rfl
          · rw [(stitchPairs_mem first.width first.height 2 (first :: rest) o h').1] at hw
            cases hw
      · rw [if_neg hc] at h
        obtain rfl := (Option.some.inj h).symm
        constructor
        · intro o ho _
          exact (stitchPairs_mem first.width first.height 1 (first :: rest) o ho).2.1
        · intro o ho hw
          rw [(stitchPairs_mem first.width first.height 1 (first :: rest) o ho).1] at hw
          cases hw
  refine ⟨key.1, key.2, ?_⟩
  intro hne w hw hww s hs hsw
  rw [key.2 w hw hww, key.1 s hs hsw]
  exact hne

/-- C10, instantiated at a four-page `.jpg` chapter with the warning
page requested: the warning page keeps `.jpg` while both spreads get
`.png`. -/
theorem c10_spread_png_warning_source_ext_witness :
    (∀ o ∈ [OutFile.mk 1 ".jpg" 2000 1500 OutKind.warning,
        OutFile.mk 2 ".png" 2000 1500
          (OutKind.spread (jpgPage "004" 1000 1500) (jpgPage "003" 1000 1500)),
        OutFile.mk 3 ".png" 2000 1500
          (OutKind.spread (jpgPage "002" 1000 1500) (jpgPage "001" 1000 1500))],
      o.isWarning = false → o.ext = ".png") ∧
    (∀ o ∈ [OutFile.mk 1 ".jpg" 2000 1500 OutKind.warning,
        OutFile.mk 2 ".png" 2000 1500
          (OutKind.spread (jpgPage "004" 1000 1500) (jpgPage "003" 1000 1500)),
        OutFile.mk 3 ".png" 2000 1500
          (OutKind.spread (jpgPage "002" 1000 1500) (jpgPage "001" 1000 1500))],
      o.isWarning = true → o.ext = (jpgPage "004" 1000 1500).suffix) ∧
    ((jpgPage "004" 1000 1500).suffix ≠ ".png" →
      ∀ w ∈ [OutFile.mk 1 ".jpg" 2000 1500 OutKind.warning,
        OutFile.mk 2 ".png" 2000 1500
          (OutKind.spread (jpgPage "004" 1000 1500) (jpgPage "003" 1000 1500)),
        OutFile.mk 3 ".png" 2000 1500
          (OutKind.spread (jpgPage "002" 1000 1500) (jpgPage "001" 1000 1500))],
        w.isWarning = true →
        ∀ s ∈ [OutFile.mk 1 ".jpg" 2000 1500 OutKind.warning,
          OutFile.mk 2 ".png" 2000 1500
            (OutKind.spread (jpgPage "004" 1000 1500) (jpgPage "003" 1000 1500)),
          OutFile.mk 3 ".png" 2000 1500
            (OutKind.spread (jpgPage "002" 1000 1500) (jpgPage "001" 1000 1500))],
          s.isWarning = false → w.ext ≠ s.ext) :=
  c10_spread_png_warning_source_ext (jpgPage "004" 1000 1500)
    [jpgPage "003" 1000 1500, jpgPage "002" 1000 1500, jpgPage "001" 1000 1500]
    false
    [OutFile.mk 1 ".jpg" 2000 1500 OutKind.warning,
      OutFile.mk 2 ".png" 2000 1500
        (OutKind.spread (jpgPage "004" 1000 1500) (jpgPage "003" 1000 1500)),
      OutFile.mk 3 ".png" 2000 1500
        (OutKind.spread (jpgPage "002" 1000 1500) (jpgPage "001" 1000 1500))]
    (by decide)

end SpreadStitcher
